import Mathlib

/-!
Shallow embedding of an in-memory book CRUD service (TypeScript repository
plus Express HTTP layer) and proofs about its repository and route behaviour.

The repository keeps a module-level array `books` and a counter `nextBookId`.
We model the mutable array as an explicit `List IBook` parameter threaded
through the operations, and JavaScript numbers as `Int` (all values involved
are integers).  JavaScript `undefined` for optional payload/query fields is
modelled as `Option.none`; string truthiness (`if (title)`) is "defined and
non-empty", number truthiness is "defined and non-zero".
-/

/-- A book record (interfaces/domain.ts, `IBook`). -/
structure IBook where
  id : Int
  title : String
  author : String
  yearOfRelease : Int
  isbn : String
  isBorrowed : Bool
deriving DecidableEq, Repr

/-- Payload of POST /api/books (`IBookCreationData = Omit IBook id isBorrowed`). -/
structure IBookCreationData where
  title : String
  author : String
  yearOfRelease : Int
  isbn : String
deriving DecidableEq, Repr

/-- Payload of PUT /api/books/:id (`IBookUpdateData = Partial IBookCreationData`);
each field may be absent (`none`, JavaScript `undefined`). -/
structure IBookUpdateData where
  title : Option String
  author : Option String
  yearOfRelease : Option Int
  isbn : Option String
deriving DecidableEq, Repr

/-- Query filters of GET /api/books: `{ title, author, year, isBorrowed }`,
all optional strings (query parameters arrive as strings). -/
structure BookFilters where
  title : Option String
  author : Option String
  year : Option String
  isBorrowed : Option String
deriving DecidableEq, Repr

/-- Pagination metadata (interfaces/domain.ts, `IPaginationResult`). -/
structure IPaginationResult where
  totalItems : Nat
  totalPages : Nat
  currentPage : Nat
  pageSize : Nat
deriving DecidableEq, Repr

/-- List response of the query operation (interfaces/http.ts, `IBookResponse`). -/
structure IBookResponse where
  books : List IBook
  pagination : IPaginationResult
deriving DecidableEq, Repr

/-- JavaScript `x || y` for an optional string `x`: `undefined` and `""` are
falsy, so they yield `y`; a non-empty string yields itself. -/
def jsOrStr (newVal : Option String) (oldVal : String) : String :=
  match newVal with
  | none => oldVal
  | some s => if s = "" then oldVal else s

/-- JavaScript `x || y` for an optional integer `x`: `undefined` and `0` are
falsy, so they yield `y`; a non-zero integer yields itself. -/
def jsOrInt (newVal : Option Int) (oldVal : Int) : Int :=
  match newVal with
  | none => oldVal
  | some n => if n = 0 then oldVal else n

/-- Value of a maximal decimal-digit prefix, as in `parseInt`. -/
def digitsToNat (ds : List Char) : Nat :=
  ds.foldl (fun acc c => acc * 10 + (c.toNat - 48)) 0

/-- JavaScript `parseInt(s, 10)`: skip leading whitespace, read an optional
sign and then a maximal run of decimal digits; `NaN` (here `none`) when no
digit is found. -/
def parseIntJS (s : String) : Option Int :=
  let trimmed := s.toList.dropWhile (fun c => c.isWhitespace)
  let signAndRest : Int × List Char :=
    match trimmed with
    | '-' :: r => (-1, r)
    | '+' :: r => (1, r)
    | r => (1, r)
  let digits := signAndRest.2.takeWhile (fun c => c.isDigit)
  if digits.isEmpty then none
  else some (signAndRest.1 * (digitsToNat digits : Int))

/-- The preloaded store (model/bookRepository.ts, module-level `books`). -/
def books : List IBook := [
  { id := 101, title := "The Great Gatsby", author := "F. Scott Fitzgerald", yearOfRelease := 1925, isbn := "978-0743273565", isBorrowed := false },
  { id := 102, title := "To Kill a Mockingbird", author := "Harper Lee", yearOfRelease := 1960, isbn := "978-0061120084", isBorrowed := true },
  { id := 103, title := "1984", author := "George Orwell", yearOfRelease := 1949, isbn := "978-0451524935", isBorrowed := false },
  { id := 104, title := "The Hobbit", author := "J.R.R. Tolkien", yearOfRelease := 1937, isbn := "978-0618260300", isBorrowed := false },
  { id := 105, title := "Dune", author := "Frank Herbert", yearOfRelease := 1965, isbn := "978-0441172719", isBorrowed := true },
  { id := 106, title := "A Game of Thrones", author := "George R.R. Martin", yearOfRelease := 1996, isbn := "978-0553103540", isBorrowed := false },
  { id := 107, title := "The Fellowship of the Ring", author := "J.R.R. Tolkien", yearOfRelease := 1954, isbn := "978-0618346257", isBorrowed := true },
  { id := 108, title := "A Thousand Splendid Suns", author := "Khaled Hosseini", yearOfRelease := 2007, isbn := "978-1594489501", isBorrowed := false },
  { id := 109, title := "The Martian", author := "Andy Weir", yearOfRelease := 2011, isbn := "978-0804139021", isBorrowed := true },
  { id := 110, title := "Where the Crawdads Sing", author := "Delia Owens", yearOfRelease := 2018, isbn := "978-0735219090", isBorrowed := false },
  { id := 111, title := "Gone Girl", author := "Gillian Flynn", yearOfRelease := 2012, isbn := "978-0307588371", isBorrowed := false },
  { id := 112, title := "The Silent Patient", author := "Alex Michaelides", yearOfRelease := 2019, isbn := "978-1250301691", isBorrowed := true },
  { id := 113, title := "The Nightingale", author := "Kristin Hannah", yearOfRelease := 2015, isbn := "978-0312577239", isBorrowed := false },
  { id := 114, title := "The Book Thief", author := "Markus Zusak", yearOfRelease := 2005, isbn := "978-0375842207", isBorrowed := false },
  { id := 115, title := "The Old Man and the Sea", author := "Ernest Hemingway", yearOfRelease := 1952, isbn := "978-0684801223", isBorrowed := true },
  { id := 116, title := "Of Mice and Men", author := "John Steinbeck", yearOfRelease := 1937, isbn := "978-0140177398", isBorrowed := false },
  { id := 117, title := "The Hunger Games", author := "Suzanne Collins", yearOfRelease := 2008, isbn := "978-0439023528", isBorrowed := false },
  { id := 118, title := "The Maze Runner", author := "James Dashner", yearOfRelease := 2009, isbn := "978-0385737944", isBorrowed := true },
  { id := 119, title := "The Two Towers", author := "J.R.R. Tolkien", yearOfRelease := 1954, isbn := "978-0618346264", isBorrowed := false },
  { id := 120, title := "Fahrenheit 451", author := "Ray Bradbury", yearOfRelease := 1953, isbn := "978-1451673319", isBorrowed := false }
]

/-- `let nextBookId = Math.max(...books.map(b => b.id)) + 1`.  `Math.max` over
this non-empty list of positive ids equals a fold of binary `max` seeded with 0. -/
def nextBookId : Int := ((books.map (fun b => b.id)).foldl max 0) + 1

/-- The repository's mutable module state: the book array and the id counter. -/
structure LibraryState where
  books : List IBook
  nextBookId : Int
deriving DecidableEq, Repr

/-- The initial module state of model/bookRepository.ts. -/
def initialState : LibraryState := { books := books, nextBookId := nextBookId }

/-- `createBook(data)`: builds the record with the current counter value as id
and `isBorrowed: false`, and increments the counter (`nextBookId++`). -/
def createBook (counter : Int) (data : IBookCreationData) : IBook × Int :=
  ({ id := counter, title := data.title, author := data.author,
     yearOfRelease := data.yearOfRelease, isbn := data.isbn, isBorrowed := false },
   counter + 1)

/-- `addBook(bookData)`: `createBook` then `books.push(newBook)`; returns the new record. -/
def addBook (st : LibraryState) (data : IBookCreationData) : IBook × LibraryState :=
  let created := createBook st.nextBookId data
  (created.1, { books := st.books ++ [created.1], nextBookId := created.2 })

/-- `getBookById(id)`: a string input is run through `parseInt` (NaN giving
`undefined`), then the first book with that id is returned via `.find()`. -/
def getBookById (st : List IBook) (id : Sum String Int) : Option IBook :=
  let bookId : Option Int :=
    match id with
    | Sum.inl s => parseIntJS s
    | Sum.inr n => some n
  match bookId with
  | none => none
  | some n => st.find? (fun book => book.id == n)

/-- The merge step of `updateBook`: spread of the old record with each field
replaced by `updateData.field || old.field`; `id` and `isBorrowed` are not listed. -/
def mergeBook (old : IBook) (updateData : IBookUpdateData) : IBook :=
  { old with
    title := jsOrStr updateData.title old.title,
    author := jsOrStr updateData.author old.author,
    yearOfRelease := jsOrInt updateData.yearOfRelease old.yearOfRelease,
    isbn := jsOrStr updateData.isbn old.isbn }

/-- `updateBook(id, updateData)`: `findIndex` on the id then in-place
replacement of that entry by the merged record, returning it; `null` (here
`none`) when no index matches.  Modelled by structural recursion replacing the
first entry whose id matches. -/
def updateBook (st : List IBook) (bookId : Int) (updateData : IBookUpdateData) :
    Option IBook × List IBook :=
  match st with
  | [] => (none, [])
  | b :: rest =>
    if b.id == bookId then
      let nb := mergeBook b updateData
      (some nb, nb :: rest)
    else
      let tail := updateBook rest bookId updateData
      (tail.1, b :: tail.2)

/-- `deleteBook(id)`: `books = books.filter(b => b.id !== bookId)` and the
report is the length comparison `books.length < initialLength`. -/
def deleteBook (st : List IBook) (bookId : Int) : Bool × List IBook :=
  let newBooks := st.filter (fun b => b.id != bookId)
  (decide (newBooks.length < st.length), newBooks)

/-- JavaScript `s.toLowerCase()` (character-wise lower-casing, as a map over
the string's character list). -/
def jsToLower (s : String) : String :=
  String.mk (s.toList.map Char.toLower)

/-- JavaScript `s.includes(sub)` on the character list level: does `needle`
occur contiguously in the haystack?  The empty needle always occurs. -/
def hasSubstr (needle : List Char) : List Char → Bool
  | [] => needle.isEmpty
  | c :: rest => needle.isPrefixOf (c :: rest) || hasSubstr needle rest

/-- JavaScript `s.includes(sub)`. -/
def strIncludes (s sub : String) : Bool :=
  hasSubstr sub.toList s.toList

/-- The title step of `getBooksPaginatedAndFiltered`: `if (title)` — skipped
when the filter is `undefined` or `""` (falsy) — else keep the books whose
lower-cased title contains the lower-cased filter. -/
def applyTitleFilter (title : Option String) (l : List IBook) : List IBook :=
  match title with
  | none => l
  | some t =>
    if t = "" then l
    else l.filter (fun b => strIncludes (jsToLower b.title) (jsToLower t))

/-- The author step: same shape as the title step, on the author field. -/
def applyAuthorFilter (author : Option String) (l : List IBook) : List IBook :=
  match author with
  | none => l
  | some a =>
    if a = "" then l
    else l.filter (fun b => strIncludes (jsToLower b.author) (jsToLower a))

/-- The year step: `if (year)` — skipped when `undefined` or `""` — else keep
the books with `String(b.yearOfRelease) === String(year)`. -/
def applyYearFilter (year : Option String) (l : List IBook) : List IBook :=
  match year with
  | none => l
  | some y =>
    if y = "" then l
    else l.filter (fun b => toString b.yearOfRelease == y)

/-- The borrowed step: `if (isBorrowed !== undefined)` — applied for every
defined string, even `""` — keep the books whose flag equals
`isBorrowed.toLowerCase() === 'true'`. -/
def applyIsBorrowedFilter (isBorrowed : Option String) (l : List IBook) : List IBook :=
  match isBorrowed with
  | none => l
  | some s => l.filter (fun b => b.isBorrowed == (jsToLower s == "true"))

/-- The filtering stage of `getBooksPaginatedAndFiltered`: the four steps
applied in source order (title, author, year, borrowed status). -/
def filterBooks (st : List IBook) (filters : BookFilters) : List IBook :=
  applyIsBorrowedFilter filters.isBorrowed
    (applyYearFilter filters.year
      (applyAuthorFilter filters.author
        (applyTitleFilter filters.title st)))

/-- `getBooksPaginatedAndFiltered(filters, page, pageSize)`: filter, then
paginate.  `Math.ceil(totalItems / pageSize)` is the natural-number ceiling
division `(totalItems + pageSize - 1) / pageSize` (the route layer guarantees
`pageSize >= 1`), and `slice(startIndex, endIndex)` with the non-negative
1-indexed `page` is drop-then-take. -/
def getBooksPaginatedAndFiltered (st : List IBook) (filters : BookFilters)
    (page pageSize : Nat) : IBookResponse :=
  let filteredBooks := filterBooks st filters
  let totalItems := filteredBooks.length
  let totalPages := (totalItems + pageSize - 1) / pageSize
  let startIndex := (page - 1) * pageSize
  let endIndex := startIndex + pageSize
  let paginatedBooks := (filteredBooks.drop startIndex).take (endIndex - startIndex)
  { books := paginatedBooks,
    pagination :=
      { totalItems := totalItems, totalPages := totalPages,
        currentPage := page, pageSize := pageSize } }

/-- An HTTP response of the /api/books/:id routes: the status code, the book
body when one is sent, and the `error` field of an `IErrorResponse` body. -/
structure HttpResponse where
  status : Nat
  book : Option IBook
  error : Option String
deriving DecidableEq, Repr

/-- The 400 response shared by the :id routes. -/
def invalidIdResponse (id : String) : HttpResponse :=
  { status := 400, book := none,
    error := some ("Invalid Book ID provided: " ++ id ++ ". Must be a positive integer.") }

/-- The 404 response shared by the :id routes. -/
def notFoundResponse (id : String) : HttpResponse :=
  { status := 404, book := none,
    error := some ("Book with ID " ++ id ++ " not found") }

/-- GET /api/books/:id: 400 when `parseInt(id)` is NaN or below 1, else look
the book up (the raw string is passed to `getBookById`, which re-parses it);
404 when absent, 200 with the book otherwise. -/
def getBookRoute (st : List IBook) (id : String) : HttpResponse :=
  match parseIntJS id with
  | none => invalidIdResponse id
  | some numericId =>
    if numericId < 1 then invalidIdResponse id
    else
      match getBookById st (Sum.inl id) with
      | none => notFoundResponse id
      | some book => { status := 200, book := some book, error := none }

/-- `Object.keys(updateData).length` for a JSON body drawn from the four
`IBookUpdateData` fields: the number of keys present (even with falsy values). -/
def keysCount (u : IBookUpdateData) : Nat :=
  (if u.title.isSome then 1 else 0) + (if u.author.isSome then 1 else 0) +
    (if u.yearOfRelease.isSome then 1 else 0) + (if u.isbn.isSome then 1 else 0)

/-- PUT /api/books/:id: 400 when the id is NaN or below 1, 400 when the body
has no keys, then `updateBook` with the parsed id; 404 when it returns the
not-found marker, 200 with the updated book otherwise. -/
def putBookRoute (st : List IBook) (id : String) (updateData : IBookUpdateData) :
    HttpResponse × List IBook :=
  match parseIntJS id with
  | none => (invalidIdResponse id, st)
  | some numericId =>
    if numericId < 1 then (invalidIdResponse id, st)
    else if keysCount updateData == 0 then
      ({ status := 400, book := none, error := some "No update data provided." }, st)
    else
      let updated := updateBook st numericId updateData
      match updated.1 with
      | none => (notFoundResponse id, updated.2)
      | some b => ({ status := 200, book := some b, error := none }, updated.2)

/-- DELETE /api/books/:id: 400 when the id is NaN or below 1, then
`deleteBook` with the parsed id; 404 when nothing was removed, 204 with an
empty body otherwise. -/
def deleteBookRoute (st : List IBook) (id : String) : HttpResponse × List IBook :=
  match parseIntJS id with
  | none => (invalidIdResponse id, st)
  | some numericId =>
    if numericId < 1 then (invalidIdResponse id, st)
    else
      let deleted := deleteBook st numericId
      if deleted.1 then ({ status := 204, book := none, error := none }, deleted.2)
      else (notFoundResponse id, deleted.2)

/-- Whether a book survives the title filter: a missing or empty filter
matches everything (the step is skipped), otherwise the lower-cased stored
title must contain the lower-cased filter as a substring. -/
def titleFilterMatches (title : Option String) (b : IBook) : Bool :=
  match title with
  | none => true
  | some t => if t = "" then true else strIncludes (jsToLower b.title) (jsToLower t)

/-- Whether a book survives the author filter (as for the title, on the author). -/
def authorFilterMatches (author : Option String) (b : IBook) : Bool :=
  match author with
  | none => true
  | some a => if a = "" then true else strIncludes (jsToLower b.author) (jsToLower a)

/-- Whether a book survives the year filter: a missing or empty filter matches
everything, otherwise the stored year printed as a string must equal the filter. -/
def yearFilterMatches (year : Option String) (b : IBook) : Bool :=
  match year with
  | none => true
  | some y => if y = "" then true else toString b.yearOfRelease == y

/-- Whether a book survives the borrowed filter: a missing filter matches
everything, otherwise the stored flag must equal
`isBorrowed.toLowerCase() === 'true'` (every defined value is applied, `""` included). -/
def isBorrowedFilterMatches (isBorrowed : Option String) (b : IBook) : Bool :=
  match isBorrowed with
  | none => true
  | some s => b.isBorrowed == (jsToLower s == "true")

/-- Conjunction of the four per-filter conditions, in source order. -/
def bookMatchesFilters (filters : BookFilters) (b : IBook) : Bool :=
  titleFilterMatches filters.title b && authorFilterMatches filters.author b &&
    yearFilterMatches filters.year b && isBorrowedFilterMatches filters.isBorrowed b

/-- The id discipline of the repository: ids are pairwise distinct and the
counter is strictly above every stored id. -/
def StoreInv (st : LibraryState) : Prop :=
  (st.books.map (fun b => b.id)).Nodup ∧ ∀ b ∈ st.books, b.id < st.nextBookId

lemma applyTitleFilter_eq_filter (title : Option String) (l : List IBook) :
    applyTitleFilter title l = l.filter (fun b => titleFilterMatches title b) := by
  cases title with
  | none => simp [applyTitleFilter, titleFilterMatches]
  | some t =>
    by_cases h : t = "" <;> simp [applyTitleFilter, titleFilterMatches, h]

lemma applyAuthorFilter_eq_filter (author : Option String) (l : List IBook) :
    applyAuthorFilter author l = l.filter (fun b => authorFilterMatches author b) := by
  cases author with
  | none => simp [applyAuthorFilter, authorFilterMatches]
  | some a =>
    by_cases h : a = "" <;> simp [applyAuthorFilter, authorFilterMatches, h]

lemma applyYearFilter_eq_filter (year : Option String) (l : List IBook) :
    applyYearFilter year l = l.filter (fun b => yearFilterMatches year b) := by
  cases year with
  | none => simp [applyYearFilter, yearFilterMatches]
  | some y =>
    by_cases h : y = "" <;> simp [applyYearFilter, yearFilterMatches, h]

lemma applyIsBorrowedFilter_eq_filter (isBorrowed : Option String) (l : List IBook) :
    applyIsBorrowedFilter isBorrowed l =
      l.filter (fun b => isBorrowedFilterMatches isBorrowed b) := by
  cases isBorrowed with
  | none => simp [applyIsBorrowedFilter, isBorrowedFilterMatches]
  | some s => simp [applyIsBorrowedFilter, isBorrowedFilterMatches]

lemma bool_and_reassoc (p q r s : Bool) : (((s && r) && q) && p) = (((p && q) && r) && s) := by
  cases p <;> cases q <;> cases r <;> cases s <;> rfl

/-- The filtering stage is a single filter by the conjunction of the four
per-filter conditions. -/
lemma filterBooks_eq_filter (st : List IBook) (f : BookFilters) :
    filterBooks st f = st.filter (fun b => bookMatchesFilters f b) := by
  unfold filterBooks
  rw [applyTitleFilter_eq_filter, applyAuthorFilter_eq_filter,
    applyYearFilter_eq_filter, applyIsBorrowedFilter_eq_filter,
    List.filter_filter, List.filter_filter, List.filter_filter]
  refine List.filter_congr (fun b _ => ?_)
  simp only [bookMatchesFilters]
  exact bool_and_reassoc (titleFilterMatches f.title b) (authorFilterMatches f.author b)
    (yearFilterMatches f.year b) (isBorrowedFilterMatches f.isBorrowed b)

/-- C4: for every store and combination of filters, the query's filtering
stage applies the four optional filters in order and independently — it equals
one pass keeping the books that satisfy the conjunction of the per-filter
conditions (case-insensitive substring on title and author, string-compared
equality on year, boolean equality on borrowed status), a filter acts only
when its value is defined (all-undefined filters keep everything), every
surviving book satisfies each defined and applied filter, and the survivors
keep their original insertion order (the result is a sublist of the store). -/
theorem c4_query_filter_semantics (st : List IBook) (f : BookFilters) :
    filterBooks st f = st.filter (fun b => bookMatchesFilters f b) ∧
    (filterBooks st f).Sublist st ∧
    (∀ b ∈ filterBooks st f,
      (∀ t, f.title = some t → t ≠ "" →
        strIncludes (jsToLower b.title) (jsToLower t) = true) ∧
      (∀ a, f.author = some a → a ≠ "" →
        strIncludes (jsToLower b.author) (jsToLower a) = true) ∧
      (∀ y, f.year = some y → y ≠ "" → toString b.yearOfRelease = y) ∧
      (∀ s, f.isBorrowed = some s → b.isBorrowed = (jsToLower s == "true"))) ∧
    filterBooks st { title := none, author := none, year := none, isBorrowed := none } = st := by
  refine ⟨filterBooks_eq_filter st f, ?_, ?_, rfl⟩
  · rw [filterBooks_eq_filter]
    exact List.filter_sublist st
  · intro b hb
    rw [filterBooks_eq_filter] at hb
    have hm := (List.mem_filter.mp hb).2
    simp only [bookMatchesFilters, Bool.and_eq_true] at hm
    obtain ⟨⟨⟨ht, ha⟩, hy⟩, hib⟩ := hm
    refine ⟨?_, ?_, ?_, ?_⟩
    · intro t hft hne
      rw [hft] at ht
      simpa [titleFilterMatches, hne] using ht
    · intro a hfa hne
      rw [hfa] at ha
      simpa [authorFilterMatches, hne] using ha
    · intro y hfy hne
      rw [hfy] at hy
      simpa [yearFilterMatches, hne] using hy
    · intro s hfs
      rw [hfs] at hib
      simpa [isBorrowedFilterMatches] using hib

/-- Witness for C4 at a concrete input: with no filter defined the query's
filtering stage returns the preloaded store unchanged. -/
theorem c4_query_filter_semantics_witness :
    filterBooks books { title := none, author := none, year := none, isBorrowed := none } =
      books :=
  (c4_query_filter_semantics books
    { title := none, author := none, year := none, isBorrowed := none }).2.2.2

/-- C10: a defined `isBorrowed` filter is interpreted as `true` exactly when
the string lower-cases to `"true"`; any other defined value is interpreted as
`false` and therefore selects exactly the non-borrowed records (it is neither
rejected nor ignored). -/
theorem c10_isBorrowed_string_parsing (st : List IBook) (s : String) :
    filterBooks st { title := none, author := none, year := none, isBorrowed := some s } =
      st.filter (fun b => b.isBorrowed == (jsToLower s == "true")) ∧
    (jsToLower s ≠ "true" →
      filterBooks st { title := none, author := none, year := none, isBorrowed := some s } =
        st.filter (fun b => b.isBorrowed == false)) := by
  constructor
  · rfl
  · intro h
    have hb : (jsToLower s == "true") = false := by
      simpa using h
    show st.filter (fun b => b.isBorrowed == (jsToLower s == "true")) = _
    rw [hb]

/-- Witness for C10 at a concrete input: filtering the preloaded store with
`isBorrowed=banana` keeps exactly the non-borrowed records. -/
theorem c10_isBorrowed_string_parsing_witness :
    filterBooks books { title := none, author := none, year := none, isBorrowed := some "banana" } =
      books.filter (fun b => b.isBorrowed == false) :=
  (c10_isBorrowed_string_parsing books "banana").2 (by decide)

/-- C1: for every store, filter combination and 1-indexed page of size at
least 1, the query's metadata reports `totalItems` equal to the length of the
filtered list and `totalPages` equal to the ceiling of `totalItems /
pageSize` (characterised as the least number of pages covering all items),
and the returned books are exactly the slice
`[(page-1)*pageSize, (page-1)*pageSize + pageSize)` of the filtered list —
in particular a page starting at or beyond `totalItems` yields an empty list,
and no page holds more than `pageSize` records. -/
theorem c1_pagination_metadata_and_slice (st : List IBook) (f : BookFilters)
    (page pageSize : Nat) (hpage : 1 ≤ page) (hsize : 1 ≤ pageSize) :
    (getBooksPaginatedAndFiltered st f page pageSize).pagination.totalItems =
      (filterBooks st f).length ∧
    (filterBooks st f).length ≤
      (getBooksPaginatedAndFiltered st f page pageSize).pagination.totalPages * pageSize ∧
    (∀ m : Nat, (filterBooks st f).length ≤ m * pageSize →
      (getBooksPaginatedAndFiltered st f page pageSize).pagination.totalPages ≤ m) ∧
    (getBooksPaginatedAndFiltered st f page pageSize).books =
      ((filterBooks st f).drop ((page - 1) * pageSize)).take pageSize ∧
    ((filterBooks st f).length ≤ (page - 1) * pageSize →
      (getBooksPaginatedAndFiltered st f page pageSize).books = []) ∧
    (getBooksPaginatedAndFiltered st f page pageSize).books.length ≤ pageSize := by
  have hpos : 0 < pageSize := hsize
  have hbooks : (getBooksPaginatedAndFiltered st f page pageSize).books =
      ((filterBooks st f).drop ((page - 1) * pageSize)).take pageSize := by
    simp [getBooksPaginatedAndFiltered]
  refine ⟨rfl, ?_, ?_, hbooks, ?_, ?_⟩
  · show (filterBooks st f).length ≤
      ((filterBooks st f).length + pageSize - 1) / pageSize * pageSize
    rw [← Nat.ceilDiv_eq_add_pred_div]
    calc (filterBooks st f).length
        ≤ pageSize * ((filterBooks st f).length ⌈/⌉ pageSize) := le_smul_ceilDiv hpos
      _ = (filterBooks st f).length ⌈/⌉ pageSize * pageSize := Nat.mul_comm ..
  · intro m hm
    show ((filterBooks st f).length + pageSize - 1) / pageSize ≤ m
    rw [← Nat.ceilDiv_eq_add_pred_div]
    exact (ceilDiv_le_iff_le_mul hpos).mpr (by rw [Nat.mul_comm]; exact hm)
  · intro hbeyond
    rw [hbooks, List.drop_eq_nil_of_le hbeyond, List.take_nil]
  · rw [hbooks]
    exact List.length_take_le ..

/-- Witness for C1 at a concrete input: on the preloaded store with the year
filter `1937`, page 1 of size 10 reports `totalItems` equal to the filtered
count. -/
theorem c1_pagination_metadata_and_slice_witness :
    (getBooksPaginatedAndFiltered books
      { title := none, author := none, year := some "1937", isBorrowed := none } 1 10
      ).pagination.totalItems =
      (filterBooks books
        { title := none, author := none, year := some "1937", isBorrowed := none }).length :=
  (c1_pagination_metadata_and_slice books
    { title := none, author := none, year := some "1937", isBorrowed := none } 1 10
    (by decide) (by decide)).1

lemma updateBook_fst_eq_merge (bookId : Int) (u : IBookUpdateData) :
    ∀ (st : List IBook) (old : IBook),
      st.find? (fun b => b.id == bookId) = some old →
      (updateBook st bookId u).1 = some (mergeBook old u) := by
  intro st
  induction st with
  | nil =>
    intro old h
    simp [List.find?] at h
  | cons b rest ih =>
    intro old h
    by_cases hb : (b.id == bookId) = true
    · rw [List.find?_cons_of_pos (p := fun x : IBook => x.id == bookId) _ hb] at h
      cases h
      simp [updateBook, hb]
    · rw [List.find?_cons_of_neg (p := fun x : IBook => x.id == bookId) _ (by simpa using hb)] at h
      simp only [updateBook, hb, if_false]
      exact ih old h

/-- C2: whenever a book is found for the given id, the update merges only the
truthy payload fields into it: a falsy field (`undefined`, `""`, `0`) leaves
the stored field unchanged, a truthy field replaces exactly that field, and
the `id` and `isBorrowed` fields of the result always equal the old ones. -/
theorem c2_update_truthy_merge (st : List IBook) (bookId : Int) (u : IBookUpdateData)
    (old : IBook) (hfind : st.find? (fun b => b.id == bookId) = some old) :
    ∃ nb, (updateBook st bookId u).1 = some nb ∧
      nb.id = old.id ∧ nb.isBorrowed = old.isBorrowed ∧
      (u.title = none ∨ u.title = some "" → nb.title = old.title) ∧
      (∀ s, u.title = some s → s ≠ "" → nb.title = s) ∧
      (u.author = none ∨ u.author = some "" → nb.author = old.author) ∧
      (∀ s, u.author = some s → s ≠ "" → nb.author = s) ∧
      (u.yearOfRelease = none ∨ u.yearOfRelease = some 0 →
        nb.yearOfRelease = old.yearOfRelease) ∧
      (∀ n, u.yearOfRelease = some n → n ≠ 0 → nb.yearOfRelease = n) ∧
      (u.isbn = none ∨ u.isbn = some "" → nb.isbn = old.isbn) ∧
      (∀ s, u.isbn = some s → s ≠ "" → nb.isbn = s) := by
  refine ⟨mergeBook old u, updateBook_fst_eq_merge bookId u st old hfind,
    rfl, rfl, ?_, ?_, ?_, ?_, ?_, ?_, ?_, ?_⟩
  · rintro (h | h) <;> simp [mergeBook, jsOrStr, h]
  · intro s h hne
    simp [mergeBook, jsOrStr, h, hne]
  · rintro (h | h) <;> simp [mergeBook, jsOrStr, h]
  · intro s h hne
    simp [mergeBook, jsOrStr, h, hne]
  · rintro (h | h) <;> simp [mergeBook, jsOrInt, h]
  · intro n h hne
    simp [mergeBook, jsOrInt, h, hne]
  · rintro (h | h) <;> simp [mergeBook, jsOrStr, h]
  · intro s h hne
    simp [mergeBook, jsOrStr, h, hne]

/-- Witness for C2 at a concrete input: updating book 101 with a truthy title
and falsy author/year/isbn changes exactly the title. -/
theorem c2_update_truthy_merge_witness :
    (updateBook books 101
      { title := some "Gatsby II", author := none, yearOfRelease := some 0,
        isbn := some "" }).1 =
      some { id := 101, title := "Gatsby II", author := "F. Scott Fitzgerald",
             yearOfRelease := 1925, isbn := "978-0743273565", isBorrowed := false } := by
  obtain ⟨nb, hnb, hid, hbor, ht1, ht2, ha1, ha2, hy1, hy2, hi1, hi2⟩ :=
    c2_update_truthy_merge books 101
      { title := some "Gatsby II", author := none, yearOfRelease := some 0, isbn := some "" }
      { id := 101, title := "The Great Gatsby", author := "F. Scott Fitzgerald",
        yearOfRelease := 1925, isbn := "978-0743273565", isBorrowed := false }
      (by decide)
  rw [hnb]
  have h1 := ht2 "Gatsby II" rfl (by decide)
  have h2 := ha1 (Or.inl rfl)
  have h3 := hy1 (Or.inr rfl)
  have h4 := hi1 (Or.inr rfl)
  cases nb
  simp_all

lemma updateBook_notfound (bookId : Int) (u : IBookUpdateData) :
    ∀ st : List IBook, (∀ b ∈ st, b.id ≠ bookId) → updateBook st bookId u = (none, st) := by
  intro st
  induction st with
  | nil => intro _; rfl
  | cons b rest ih =>
    intro h
    have hb : (b.id == bookId) = false := by
      simpa using h b (List.mem_cons_self b rest)
    have hrest := ih (fun x hx => h x (List.mem_cons_of_mem b hx))
    simp [updateBook, hb, hrest]

lemma deleteBook_notfound (bookId : Int) (st : List IBook)
    (h : ∀ b ∈ st, b.id ≠ bookId) : deleteBook st bookId = (false, st) := by
  have hfilter : st.filter (fun b => b.id != bookId) = st :=
    List.filter_eq_self.mpr (fun b hb => by simpa using h b hb)
  simp [deleteBook, hfilter]

/-- C9: calling update or delete with an id no stored record carries returns
the not-found value (`null` alias `none` for update, `false` for delete) and
leaves the store exactly as it was. -/
theorem c9_notfound_leaves_store_unchanged (st : List IBook) (bookId : Int)
    (u : IBookUpdateData) (h : ∀ b ∈ st, b.id ≠ bookId) :
    updateBook st bookId u = (none, st) ∧ deleteBook st bookId = (false, st) :=
  ⟨updateBook_notfound bookId u st h, deleteBook_notfound bookId st h⟩

/-- Witness for C9 at a concrete input: id 999 is absent from the preloaded
store, so update and delete return their not-found values and change nothing. -/
theorem c9_notfound_leaves_store_unchanged_witness :
    updateBook books 999 { title := none, author := none, yearOfRelease := none, isbn := none }
      = (none, books) ∧
    deleteBook books 999 = (false, books) :=
  c9_notfound_leaves_store_unchanged books 999
    { title := none, author := none, yearOfRelease := none, isbn := none } (by decide)

lemma filter_ne_id_length (bookId : Int) :
    ∀ st : List IBook, (st.map (fun b => b.id)).Nodup → (∃ b ∈ st, b.id = bookId) →
      (st.filter (fun b => b.id != bookId)).length + 1 = st.length := by
  intro st
  induction st with
  | nil =>
    rintro _ ⟨b, hb, _⟩
    exact absurd hb (List.not_mem_nil b)
  | cons b rest ih =>
    intro hnodup hex
    rw [List.map_cons, List.nodup_cons] at hnodup
    by_cases hb : b.id = bookId
    · have hrest : rest.filter (fun x => x.id != bookId) = rest := by
        refine List.filter_eq_self.mpr (fun x hx => ?_)
        have hne : x.id ≠ bookId := by
          intro hxid
          exact hnodup.1 (List.mem_map.mpr ⟨x, hx, hxid.trans hb.symm⟩)
        simpa using hne
      simp [List.filter_cons, hb, hrest]
    · obtain ⟨c, hc, hcid⟩ := hex
      rcases List.mem_cons.mp hc with rfl | hcrest
      · exact absurd hcid hb
      · have := ih hnodup.2 ⟨c, hcrest, hcid⟩
        simp only [List.filter_cons]
        have hbne : (b.id != bookId) = true := by simpa using hb
        rw [if_pos (by simp [hbne])]
        simp only [List.length_cons]
        omega

/-- C5: under unique ids, deleting an id that is present removes exactly one
record — the one whose id matches, every other record staying — and returns
`true`; deleting an absent id returns `false` and leaves the store unchanged.
The report comes from the before/after length comparison built into the
operation. -/
theorem c5_delete_semantics (st : List IBook) (bookId : Int)
    (hnodup : (st.map (fun b => b.id)).Nodup) :
    (∀ b, b ∈ (deleteBook st bookId).2 ↔ b ∈ st ∧ b.id ≠ bookId) ∧
    ((∃ b ∈ st, b.id = bookId) →
      (deleteBook st bookId).1 = true ∧
      (deleteBook st bookId).2.length + 1 = st.length) ∧
    ((∀ b ∈ st, b.id ≠ bookId) →
      (deleteBook st bookId).1 = false ∧ (deleteBook st bookId).2 = st) := by
  refine ⟨?_, ?_, ?_⟩
  · intro b
    show b ∈ st.filter (fun x => x.id != bookId) ↔ _
    rw [List.mem_filter]
    simp [bne]
  · intro hex
    have hlen : (st.filter (fun b => b.id != bookId)).length + 1 = st.length :=
      filter_ne_id_length bookId st hnodup hex
    constructor
    · show decide ((st.filter (fun b => b.id != bookId)).length < st.length) = true
      rw [decide_eq_true_eq]
      omega
    · exact hlen
  · intro habs
    have h := deleteBook_notfound bookId st habs
    exact ⟨by rw [h], by rw [h]⟩

/-- Witness for C5 at a concrete input: deleting the present id 104 from the
preloaded store reports `true` and shrinks the store by exactly one record. -/
theorem c5_delete_semantics_witness :
    (deleteBook books 104).1 = true ∧ (deleteBook books 104).2.length + 1 = books.length :=
  (c5_delete_semantics books 104 (by decide)).2.1 (by decide)

/-- C6: `getBookById` accepts an integer or a string; a string is parsed with
`parseInt`, a parse failure yields the same not-found value (`undefined`,
here `none`) as a missing record, with no separate error; when the parse
succeeds the lookup behaves exactly as for the integer input, returning a
stored record with the parsed id when one exists and `none` otherwise. -/
theorem c6_getById_parse_and_lookup (st : List IBook) (s : String) :
    (parseIntJS s = none → getBookById st (Sum.inl s) = none) ∧
    (∀ n, parseIntJS s = some n →
      getBookById st (Sum.inl s) = getBookById st (Sum.inr n) ∧
      ((∀ b ∈ st, b.id ≠ n) → getBookById st (Sum.inl s) = none) ∧
      ((∃ b ∈ st, b.id = n) →
        ∃ r, getBookById st (Sum.inl s) = some r ∧ r ∈ st ∧ r.id = n)) := by
  constructor
  · intro h
    simp [getBookById, h]
  · intro n h
    refine ⟨by simp [getBookById, h], ?_, ?_⟩
    · intro habs
      have : st.find? (fun book => book.id == n) = none :=
        List.find?_eq_none.mpr (fun x hx => by simpa using habs x hx)
      simp [getBookById, h, this]
    · rintro ⟨b, hb, hid⟩
      have hsome : (st.find? (fun book => book.id == n)).isSome :=
        List.find?_isSome.mpr ⟨b, hb, by simp [hid]⟩
      obtain ⟨r, hr⟩ := Option.isSome_iff_exists.mp hsome
      refine ⟨r, by simp [getBookById, h, hr], List.mem_of_find?_eq_some hr, ?_⟩
      simpa using List.find?_some hr

/-- Witness for C6 at a concrete input: the unparsable id "abc" yields the
not-found value on the preloaded store. -/
theorem c6_getById_parse_and_lookup_witness :
    getBookById books (Sum.inl "abc") = none :=
  (c6_getById_parse_and_lookup books "abc").1 (by decide)

lemma updateBook_map_id (bookId : Int) (u : IBookUpdateData) :
    ∀ st : List IBook,
      ((updateBook st bookId u).2).map (fun b => b.id) = st.map (fun b => b.id) := by
  intro st
  induction st with
  | nil => rfl
  | cons b rest ih =>
    by_cases hb : (b.id == bookId) = true
    · simp [updateBook, hb, mergeBook]
    · simp [updateBook, hb, ih]

/-- C3: create, update and delete all preserve uniqueness of the stored ids
(relative to the id-counter invariant), and each create assigns the current
counter value — strictly greater than every id present, the counter being
seeded at the maximal preloaded id plus one (121) and incremented on each
create — sets `isBorrowed` to `false` regardless of the input, appends the
new record at the end of the store, and returns it. -/
theorem c3_id_uniqueness_and_monotonicity :
    StoreInv initialState ∧
    nextBookId = 121 ∧
    (∀ b ∈ books, b.id < nextBookId) ∧
    (∃ b ∈ books, b.id + 1 = nextBookId) ∧
    (∀ (st : LibraryState) (data : IBookCreationData), StoreInv st →
      StoreInv (addBook st data).2 ∧
      (addBook st data).1.id = st.nextBookId ∧
      (addBook st data).1.isBorrowed = false ∧
      (addBook st data).2.nextBookId = st.nextBookId + 1 ∧
      (addBook st data).2.books = st.books ++ [(addBook st data).1] ∧
      (∀ b ∈ st.books, b.id < (addBook st data).1.id)) ∧
    (∀ (st : LibraryState) (bookId : Int) (u : IBookUpdateData), StoreInv st →
      StoreInv { books := (updateBook st.books bookId u).2, nextBookId := st.nextBookId }) ∧
    (∀ (st : LibraryState) (bookId : Int), StoreInv st →
      StoreInv { books := (deleteBook st.books bookId).2, nextBookId := st.nextBookId }) := by
  refine ⟨⟨by decide, by decide⟩, by decide, by decide, by decide, ?_, ?_, ?_⟩
  · intro st data hinv
    refine ⟨⟨?_, ?_⟩, rfl, rfl, rfl, rfl, fun b hb => hinv.2 b hb⟩
    · show ((st.books ++ [(createBook st.nextBookId data).1]).map (fun b => b.id)).Nodup
      rw [List.map_append]
      rw [List.nodup_append]
      refine ⟨hinv.1, List.nodup_singleton _, ?_⟩
      intro x hx hx1
      obtain ⟨a, ha, haid⟩ := List.mem_map.mp hx
      have hxval : x = st.nextBookId := by simpa [createBook] using hx1
      have := hinv.2 a ha
      omega
    · intro b hb
      show b.id < st.nextBookId + 1
      rcases List.mem_append.mp hb with hb | hb
      · have := hinv.2 b hb
        omega
      · have hbval : b = (createBook st.nextBookId data).1 := by simpa using hb
        rw [hbval]
        show st.nextBookId < st.nextBookId + 1
        omega
  · intro st bookId u hinv
    refine ⟨?_, ?_⟩
    · show (((updateBook st.books bookId u).2).map (fun b => b.id)).Nodup
      rw [updateBook_map_id]
      exact hinv.1
    · intro b hb
      have hmem : b.id ∈ ((updateBook st.books bookId u).2).map (fun b => b.id) :=
        List.mem_map.mpr ⟨b, hb, rfl⟩
      rw [updateBook_map_id] at hmem
      obtain ⟨a, ha, haid⟩ := List.mem_map.mp hmem
      have := hinv.2 a ha
      show b.id < st.nextBookId
      omega
  · intro st bookId hinv
    refine ⟨?_, ?_⟩
    · show ((st.books.filter (fun b => b.id != bookId)).map (fun b => b.id)).Nodup
      exact hinv.1.sublist ((List.filter_sublist st.books).map (fun b => b.id))
    · intro b hb
      exact hinv.2 b (List.mem_of_mem_filter hb)

/-- Witness for C3 at a concrete input: adding a book to the initial state
assigns the current counter value 121 as its id. -/
theorem c3_id_uniqueness_and_monotonicity_witness :
    (addBook initialState
      { title := "New Book", author := "New Author", yearOfRelease := 2024,
        isbn := "978-0000000000" }).1.id = 121 :=
  (c3_id_uniqueness_and_monotonicity.2.2.2.2.1 initialState
    { title := "New Book", author := "New Author", yearOfRelease := 2024,
      isbn := "978-0000000000" } ⟨by decide, by decide⟩).2.1

/-- C8: on the preloaded store, querying with author filter "tolkien",
page 1 and page size 2 returns exactly 2 books, all by J.R.R. Tolkien,
with `totalItems = 3` and `totalPages = 2`. -/
theorem c8_tolkien_example :
    (getBooksPaginatedAndFiltered books
      { title := none, author := some "tolkien", year := none, isBorrowed := none }
      1 2).books.length = 2 ∧
    (getBooksPaginatedAndFiltered books
      { title := none, author := some "tolkien", year := none, isBorrowed := none }
      1 2).books.all (fun b => b.author == "J.R.R. Tolkien") = true ∧
    (getBooksPaginatedAndFiltered books
      { title := none, author := some "tolkien", year := none, isBorrowed := none }
      1 2).pagination.totalItems = 3 ∧
    (getBooksPaginatedAndFiltered books
      { title := none, author := some "tolkien", year := none, isBorrowed := none }
      1 2).pagination.totalPages = 2 := by
  refine ⟨by decide, by decide, by decide, by decide⟩

/-- C7 counterexample: on PUT /api/books/:id the claim "400 exactly when the
id does not parse to an integer >= 1" fails — with the valid, existing id 101
and an empty update payload the route still answers 400 (empty-body check). -/
theorem c7_counterexample_put_empty_body :
    parseIntJS "101" = some 101 ∧ (1 : Int) ≤ 101 ∧ (∃ b ∈ books, b.id = 101) ∧
    (putBookRoute books "101"
      { title := none, author := none, yearOfRelease := none, isbn := none }).1.status = 400 := by
  refine ⟨by decide, by decide, by decide, by decide⟩

/-- C7 (amended): for GET and DELETE on /api/books/:id the response is 400
with an error body exactly when the id does not parse to an integer at least
1; for PUT it is 400 exactly when the id is invalid in that sense or the
update payload has no keys.  When the id parses to an integer at least 1
(and, for PUT, the payload is non-empty) but no book with that id exists, the
response is 404; otherwise GET answers 200 with the book, DELETE answers 204
with an empty body, and PUT answers 200 with the updated book (the record the
update operation returned). -/
theorem c7_route_status_codes (st : List IBook) (id : String) (u : IBookUpdateData) :
    ((getBookRoute st id).status = 400 ↔ ¬ ∃ n, parseIntJS id = some n ∧ 1 ≤ n) ∧
    ((deleteBookRoute st id).1.status = 400 ↔ ¬ ∃ n, parseIntJS id = some n ∧ 1 ≤ n) ∧
    ((putBookRoute st id u).1.status = 400 ↔
      ((¬ ∃ n, parseIntJS id = some n ∧ 1 ≤ n) ∨ keysCount u = 0)) ∧
    ((getBookRoute st id).status = 400 → (getBookRoute st id).error.isSome = true) ∧
    ((deleteBookRoute st id).1.status = 400 →
      (deleteBookRoute st id).1.error.isSome = true) ∧
    ((putBookRoute st id u).1.status = 400 →
      (putBookRoute st id u).1.error.isSome = true) ∧
    (∀ n, parseIntJS id = some n → 1 ≤ n →
      ((∀ b ∈ st, b.id ≠ n) →
        (getBookRoute st id).status = 404 ∧
        (deleteBookRoute st id).1.status = 404 ∧
        (keysCount u ≠ 0 → (putBookRoute st id u).1.status = 404)) ∧
      ((∃ b ∈ st, b.id = n) →
        ((getBookRoute st id).status = 200 ∧
          ∃ r, (getBookRoute st id).book = some r ∧ r ∈ st ∧ r.id = n) ∧
        ((deleteBookRoute st id).1.status = 204 ∧
          (deleteBookRoute st id).1.book = none ∧
          (deleteBookRoute st id).1.error = none) ∧
        (keysCount u ≠ 0 →
          (putBookRoute st id u).1.status = 200 ∧
          ∃ p, (updateBook st n u).1 = some p ∧
            (putBookRoute st id u).1.book = some p))) := by
  rcases hp : parseIntJS id with _ | n
  · refine ⟨?_, ?_, ?_, ?_, ?_, ?_, ?_⟩ <;>
      simp [getBookRoute, deleteBookRoute, putBookRoute, hp, invalidIdResponse]
  · by_cases hn : n < 1
    · have hnot : ¬ ∃ m, (some n : Option Int) = some m ∧ 1 ≤ m := by
        rintro ⟨m, hm, h1m⟩
        cases hm
        omega
      refine ⟨?_, ?_, ?_, ?_, ?_, ?_, ?_⟩ <;>
        simp [getBookRoute, deleteBookRoute, putBookRoute, hp, hn, invalidIdResponse, hnot]
    · have h1n : 1 ≤ n := by omega
      have hyes : ∃ m, (some n : Option Int) = some m ∧ 1 ≤ m := ⟨n, rfl, h1n⟩
      by_cases hex : ∃ b ∈ st, b.id = n
      · obtain ⟨b0, hb0, hb0id⟩ := hex
        have hsome : (st.find? (fun book => book.id == n)).isSome :=
          List.find?_isSome.mpr ⟨b0, hb0, by simp [hb0id]⟩
        obtain ⟨r, hr⟩ := Option.isSome_iff_exists.mp hsome
        have hrmem := List.mem_of_find?_eq_some hr
        have hrid : r.id = n := by simpa using List.find?_some hr
        have hget : getBookRoute st id = { status := 200, book := some r, error := none } := by
          simp [getBookRoute, hp, hn, getBookById, hr]
        have hdel1 : (deleteBook st n).1 = true := by
          show decide _ = true
          rw [decide_eq_true_eq]
          exact List.length_filter_lt_length_iff_exists.mpr ⟨b0, hb0, by simp [hb0id]⟩
        have hdelroute : (deleteBookRoute st id).1 =
            { status := 204, book := none, error := none } := by
          simp [deleteBookRoute, hp, hn, hdel1]
        have hput := updateBook_fst_eq_merge n u st r hr
        have hputroute : keysCount u ≠ 0 → (putBookRoute st id u).1 =
            { status := 200, book := some (mergeBook r u), error := none } := by
          intro hk
          have hk2 : (keysCount u == 0) = false := by simpa using hk
          simp [putBookRoute, hp, hn, hk2, hput]
        refine ⟨?_, ?_, ?_, ?_, ?_, ?_, ?_⟩
        · rw [hget]
          simp [h1n]
        · rw [hdelroute]
          simp [h1n]
        · by_cases hk : keysCount u = 0
          · have hk2 : (keysCount u == 0) = true := by simpa using hk
            simp [putBookRoute, hp, hn, hk2, hk]
          · rw [hputroute hk]
            simp [h1n, hk]
        · rw [hget]
          simp
        · rw [hdelroute]
          simp
        · by_cases hk : keysCount u = 0
          · have hk2 : (keysCount u == 0) = true := by simpa using hk
            simp [putBookRoute, hp, hn, hk2]
          · rw [hputroute hk]
            simp
        · intro m hm h1m
          obtain rfl : n = m := Option.some.inj hm
          refine ⟨fun habs => absurd hb0id (habs b0 hb0), fun _ => ?_⟩
          refine ⟨⟨by rw [hget], ⟨r, by rw [hget], hrmem, hrid⟩⟩,
            ⟨by rw [hdelroute], by rw [hdelroute], by rw [hdelroute]⟩,
            fun hk => ⟨by rw [hputroute hk], mergeBook r u, hput, by rw [hputroute hk]⟩⟩
      · have habs : ∀ b ∈ st, b.id ≠ n := by
          intro b hb hbid
          exact hex ⟨b, hb, hbid⟩
        have hfindnone : st.find? (fun book => book.id == n) = none :=
          List.find?_eq_none.mpr (fun x hx => by simpa using habs x hx)
        have hget : getBookRoute st id = notFoundResponse id := by
          simp [getBookRoute, hp, hn, getBookById, hfindnone]
        have hdelnf := deleteBook_notfound n st habs
        have hdelroute : deleteBookRoute st id = (notFoundResponse id, st) := by
          simp [deleteBookRoute, hp, hn, hdelnf]
        have hupdnf := updateBook_notfound n u st habs
        have hputroute : keysCount u ≠ 0 → putBookRoute st id u = (notFoundResponse id, st) := by
          intro hk
          have hk2 : (keysCount u == 0) = false := by simpa using hk
          simp [putBookRoute, hp, hn, hk2, hupdnf]
        refine ⟨?_, ?_, ?_, ?_, ?_, ?_, ?_⟩
        · rw [hget]
          simp [notFoundResponse, h1n]
        · rw [hdelroute]
          simp [notFoundResponse, h1n]
        · by_cases hk : keysCount u = 0
          · have hk2 : (keysCount u == 0) = true := by simpa using hk
            simp [putBookRoute, hp, hn, hk2, hk]
          · rw [hputroute hk]
            simp [notFoundResponse, h1n, hk]
        · rw [hget]
          simp [notFoundResponse]
        · rw [hdelroute]
          simp [notFoundResponse]
        · by_cases hk : keysCount u = 0
          · have hk2 : (keysCount u == 0) = true := by simpa using hk
            simp [putBookRoute, hp, hn, hk2]
          · rw [hputroute hk]
            simp [notFoundResponse]
        · intro m hm h1m
          obtain rfl : n = m := Option.some.inj hm
          refine ⟨fun _ => ⟨by rw [hget]; rfl, by rw [hdelroute]; rfl,
            fun hk => by rw [hputroute hk]; rfl⟩, fun hex2 => absurd hex2 hex⟩

/-- Witness for C7 (amended) at a concrete input: the unparsable id "abc"
makes the GET route answer 400. -/
theorem c7_route_status_codes_witness :
    (getBookRoute books "abc").status = 400 :=
  (c7_route_status_codes books "abc"
    { title := none, author := none, yearOfRelease := none, isbn := none }).1.mpr
    (by decide)
